import Mathlib

/-!
Verification of the RADIUS accounting forwarder
(`src/microservices/EdgeRuntime/acct-forwarder/forwarder.py`).

The forwarder moves accounting rows from a PostgreSQL table `radacct`
(rows carrying a boolean `forwarded_to_ch` flag) into a ClickHouse table
`radius_accounting`.  We give a shallow embedding of its pure helpers
(`determine_event_type`, `safe_str`, `safe_int`, `safe_datetime`), of the
single-cycle function `forward_batch` (fetch, transform, bulk write, mark
forwarded) as explicit state passing, of the connection-retry loops
(`connect_postgres`, `connect_clickhouse`) and of the poll-drain loop in
`main`, and prove the specified properties about them.
-/

/-- A dynamically typed Python value as it appears in a fetched row.
`dt t` models a `datetime` instance (an abstract instant, as an integer);
`vstr` / `vint` model `str` / `int` values; `none` models Python `None`. -/
inductive Val where
  | none : Val
  | vstr : String → Val
  | vint : Int → Val
  | dt : Int → Val
deriving DecidableEq, Repr

/-- Python truthiness of a value: `None` is falsy, `""` and `0` are falsy,
a `datetime` instance is always truthy.  Used by the `x or y` idiom on
line 254 of forwarder.py. -/
def pyTruthy : Val → Bool
  | Val.none => false
  | Val.vstr s => s ≠ ""
  | Val.vint n => n ≠ 0
  | Val.dt _ => true

/-- Python `x or y`: returns `x` when `x` is truthy, else `y`. -/
def pyOr (x y : Val) : Val := if pyTruthy x then x else y

/-- `safe_str` (forwarder.py lines 198-202): `None` becomes `""`,
otherwise `str(val)`.  The call sites feed it values of text columns,
which psycopg2 delivers as `str` or `None`, so the input is
`Option String` and `str` on a `str` is the identity. -/
def safe_str : Option String → String
  | Option.none => ""
  | Option.some s => s

/-- `safe_int` (forwarder.py lines 205-209): `None` becomes `0`,
otherwise `int(val)`.  The call sites feed it values of numeric columns,
which psycopg2 delivers as `int` or `None`, so the input is `Option Int`
and `int` on an `int` is the identity. -/
def safe_int : Option Int → Int
  | Option.none => 0
  | Option.some n => n

/-- `safe_datetime` (forwarder.py lines 212-218): `None` stays `None`;
a `datetime` instance is returned unchanged; ANY other value falls
through the `isinstance` check and becomes `None`. -/
def safe_datetime : Val → Option Int
  | Val.dt t => Option.some t
  | _ => Option.none

/-- A raw row of `radacct` as projected by `FETCH_QUERY`
(forwarder.py lines 153-167).  Text columns are `Option String`, numeric
columns are `Option Int`; the three accounting timestamps are kept as
dynamic `Val` because only `safe_datetime` / the `is not None` tests
inspect them.  `framedipaddress` is `COALESCE`d to `''` in SQL but is
still routed through `safe_str`, so we keep it optional here. -/
structure RawRecord where
  radacctid : Int
  acctsessionid : Option String
  acctuniqueid : Option String
  username : Option String
  realm : Option String
  nasipaddress : Option String
  nasportid : Option String
  nasporttype : Option String
  acctstarttime : Val
  acctupdatetime : Val
  acctstoptime : Val
  acctinterval : Option Int
  acctsessiontime : Option Int
  acctauthentic : Option String
  connectinfo_start : Option String
  connectinfo_stop : Option String
  acctinputoctets : Option Int
  acctoutputoctets : Option Int
  calledstationid : Option String
  callingstationid : Option String
  acctterminatecause : Option String
  servicetype : Option String
  framedprotocol : Option String
  framedipaddress : Option String
deriving DecidableEq, Repr

/-- `determine_event_type` (forwarder.py lines 188-195): the event type
depends only on whether the stop / update timestamps are `None`. -/
def determine_event_type (row : RawRecord) : String :=
  if row.acctstoptime ≠ Val.none then "stop"
  else if row.acctupdatetime ≠ Val.none then "interim"
  else "start"

/-- A row of the ClickHouse `radius_accounting` table, i.e. one entry of
`ch_rows` built in `forward_batch` (forwarder.py lines 245-272).
`acctstarttime` stays a `Val` because the code forwards
`row["acctstarttime"] or datetime.now(timezone.utc)` unnormalized. -/
structure CHRow where
  radacctid : Int
  acctsessionid : String
  acctuniqueid : String
  username : String
  realm : String
  nasipaddress : String
  nasportid : String
  nasporttype : String
  acctstarttime : Val
  acctupdatetime : Option Int
  acctstoptime : Option Int
  acctinterval : Int
  acctsessiontime : Int
  acctauthentic : String
  connectinfo_start : String
  connectinfo_stop : String
  acctinputoctets : Int
  acctoutputoctets : Int
  calledstationid : String
  callingstationid : String
  acctterminatecause : String
  servicetype : String
  framedprotocol : String
  framedipaddress : String
  event_type : String
  edge_site_id : String
deriving DecidableEq, Repr

/-- The per-row body of the loop in `forward_batch`
(forwarder.py lines 239-272): normalize one fetched row into the
ClickHouse row appended to `ch_rows`.  `now` is the instant
`datetime.now(timezone.utc)` evaluated during the transform, and
`siteId` is the `EDGE_SITE_ID` configuration value. -/
def transform (now : Int) (siteId : String) (row : RawRecord) : CHRow :=
  { radacctid := row.radacctid
    acctsessionid := safe_str row.acctsessionid
    acctuniqueid := safe_str row.acctuniqueid
    username := safe_str row.username
    realm := safe_str row.realm
    nasipaddress := safe_str row.nasipaddress
    nasportid := safe_str row.nasportid
    nasporttype := safe_str row.nasporttype
    acctstarttime := pyOr row.acctstarttime (Val.dt now)
    acctupdatetime := safe_datetime row.acctupdatetime
    acctstoptime := safe_datetime row.acctstoptime
    acctinterval := safe_int row.acctinterval
    acctsessiontime := safe_int row.acctsessiontime
    acctauthentic := safe_str row.acctauthentic
    connectinfo_start := safe_str row.connectinfo_start
    connectinfo_stop := safe_str row.connectinfo_stop
    acctinputoctets := safe_int row.acctinputoctets
    acctoutputoctets := safe_int row.acctoutputoctets
    calledstationid := safe_str row.calledstationid
    callingstationid := safe_str row.callingstationid
    acctterminatecause := safe_str row.acctterminatecause
    servicetype := safe_str row.servicetype
    framedprotocol := safe_str row.framedprotocol
    framedipaddress := safe_str row.framedipaddress
    event_type := determine_event_type row
    edge_site_id := siteId }

/-- One row of the PostgreSQL `radacct` table: the fetched projection
plus the `forwarded_to_ch` flag that `FETCH_QUERY` filters on and
`MARK_FORWARDED_QUERY` updates. -/
structure SourceRow where
  row : RawRecord
  forwarded_to_ch : Bool
deriving DecidableEq, Repr

/-- The state touched by one forwarding cycle: the source table
`radacct` and the ClickHouse sink table `radius_accounting`. -/
structure FwdState where
  radacct : List SourceRow
  radius_accounting : List CHRow
deriving DecidableEq, Repr

/-- The `ORDER BY radacctid ASC` comparison. -/
def radacctidLe (a b : RawRecord) : Prop := a.radacctid ≤ b.radacctid

instance : DecidableRel radacctidLe := fun a b => Int.decLe a.radacctid b.radacctid

instance : IsTotal RawRecord radacctidLe := ⟨fun a b => Int.le_total a.radacctid b.radacctid⟩

instance : IsTrans RawRecord radacctidLe := ⟨fun _ _ _ => Int.le_trans⟩

/-- Semantics of `FETCH_QUERY` (forwarder.py lines 153-167):
`SELECT ... FROM radacct WHERE forwarded_to_ch = false
ORDER BY radacctid ASC LIMIT limit`. -/
def FETCH_QUERY (limit : Nat) (table : List SourceRow) : List RawRecord :=
  (List.insertionSort radacctidLe
    ((table.filter (fun sr => !sr.forwarded_to_ch)).map SourceRow.row)).take limit

/-- Semantics of `MARK_FORWARDED_QUERY` (forwarder.py lines 169-171):
`UPDATE radacct SET forwarded_to_ch = true WHERE radacctid = ANY(ids)`.
A single statement: it updates every matching row or none (atomic). -/
def MARK_FORWARDED_QUERY (ids : List Int) (table : List SourceRow) : List SourceRow :=
  table.map (fun sr =>
    if sr.row.radacctid ∈ ids then { sr with forwarded_to_ch := true } else sr)

/-- `forward_batch` (forwarder.py lines 221-286) as explicit state
passing.  `fetchOk`, `writeOk`, `markOk` say whether the PostgreSQL
fetch, the ClickHouse bulk insert (`ch_client.execute`, line 275) and
the mark-forwarded update (line 283) raise; an exception is an
`Except.error` result, and the returned state is whatever the stores
hold at the moment the exception propagates. -/
def forward_batch (limit : Nat) (now : Int) (siteId : String)
    (fetchOk writeOk markOk : Bool) (s : FwdState) : FwdState × Except String Nat :=
  if !fetchOk then (s, Except.error "fetch failed")
  else
    let rows := FETCH_QUERY limit s.radacct
    if rows.isEmpty then (s, Except.ok 0)
    else
      let ch_rows := rows.map (transform now siteId)
      let pg_ids := rows.map RawRecord.radacctid
      if !writeOk then (s, Except.error "ClickHouse insert failed")
      else
        let s1 : FwdState := { s with radius_accounting := s.radius_accounting ++ ch_rows }
        if !markOk then (s1, Except.error "mark forwarded failed")
        else ({ s1 with radacct := MARK_FORWARDED_QUERY pg_ids s1.radacct },
              Except.ok ch_rows.length)

/-- The poll-path drain loop in `main` (forwarder.py lines 351-360):
`while running: count = forward_batch(...); if count == 0: break`.
Fuel-indexed; `i` counts iterations so that the per-iteration
environment (`runningSeq`, failure flags, clock) can vary.  Returns the
final state, the list of counts returned by the executed cycles, and
whether the loop ended normally (`Except.ok`) or by a propagating
exception.  Fuel exhaustion is reported as an error so theorems can
require enough fuel. -/
def pollDrainLoop (limit : Nat) (nowSeq : Nat → Int) (siteId : String)
    (runningSeq fok wok mok : Nat → Bool) :
    Nat → Nat → FwdState → FwdState × List Nat × Except String Unit
  | 0, _, s => (s, [], Except.error "fuel exhausted")
  | fuel+1, i, s =>
    if runningSeq i then
      match forward_batch limit (nowSeq i) siteId (fok i) (wok i) (mok i) s with
      | (s1, Except.error e) => (s1, [], Except.error e)
      | (s1, Except.ok 0) => (s1, [0], Except.ok ())
      | (s1, Except.ok (c+1)) =>
        match pollDrainLoop limit nowSeq siteId runningSeq fok wok mok fuel (i+1) s1 with
        | (s2, cs, r) => (s2, (c+1) :: cs, r)
    else (s, [], Except.ok ())

/-- Outcome of a connection-acquisition loop: a live connection obtained
at attempt `k`, or the `RuntimeError("Shutting down, ...")` raised after
the `while running` guard fails. -/
inductive ConnectOutcome where
  | conn : Nat → ConnectOutcome
  | fatal : ConnectOutcome
deriving DecidableEq, Repr

/-- `connect_postgres` (forwarder.py lines 104-122):
`while running: try connect; return conn; except: log; sleep(5)`, then
`raise RuntimeError("Shutting down, ...")`.  `runningSeq k` is the value
of the global `running` flag at the `k`-th loop-head check, `attemptOk k`
whether the `k`-th connection attempt succeeds.  Fuel-indexed; also
returns the trace of `time.sleep` durations performed. -/
def connect_postgres (runningSeq attemptOk : Nat → Bool) :
    Nat → Nat → Option (ConnectOutcome × List Nat)
  | 0, _ => Option.none
  | fuel+1, k =>
    if runningSeq k then
      if attemptOk k then Option.some (ConnectOutcome.conn k, [])
      else
        match connect_postgres runningSeq attemptOk fuel (k+1) with
        | Option.some (res, sleeps) => Option.some (res, 5 :: sleeps)
        | Option.none => Option.none
    else Option.some (ConnectOutcome.fatal, [])

/-- `connect_clickhouse` (forwarder.py lines 125-146): identical retry
structure to `connect_postgres` (attempt, on failure sleep 5 seconds,
retry while `running`, raise once `running` is false). -/
def connect_clickhouse (runningSeq attemptOk : Nat → Bool) :
    Nat → Nat → Option (ConnectOutcome × List Nat)
  | 0, _ => Option.none
  | fuel+1, k =>
    if runningSeq k then
      if attemptOk k then Option.some (ConnectOutcome.conn k, [])
      else
        match connect_clickhouse runningSeq attemptOk fuel (k+1) with
        | Option.some (res, sleeps) => Option.some (res, 5 :: sleeps)
        | Option.none => Option.none
    else Option.some (ConnectOutcome.fatal, [])

/-- The two stores the forwarder talks to. -/
inductive Store where
  | source : Store
  | sink : Store
deriving DecidableEq, Repr

/-- The `except` handler of the notification path (forwarder.py lines
335-342): `metrics["total_errors"] += 1` and then
`ch_client = connect_clickhouse()` — it reconnects only the ClickHouse
sink, regardless of which store raised (`failed` is unused because the
code never inspects the exception's origin). -/
def notifyErrorRecovery (_failed : Store) (totalErrors : Nat) : Nat × List Store :=
  (totalErrors + 1, [Store.sink])

/-- The `except` handler of the poll path (forwarder.py lines 365-380):
`metrics["total_errors"] += 1`, close and reconnect PostgreSQL, re-issue
`LISTEN`, reconnect ClickHouse — both stores, regardless of which one
raised. -/
def pollErrorRecovery (_failed : Store) (totalErrors : Nat) : Nat × List Store :=
  (totalErrors + 1, [Store.source, Store.sink])

/-- Number of rows of `radacct` still awaiting forwarding
(`forwarded_to_ch = false`). -/
def unforwardedCount (table : List SourceRow) : Nat :=
  (table.filter (fun sr => !sr.forwarded_to_ch)).length

/-- A raw row with every optional field absent (all SQL `NULL`s), for
instantiating theorems at concrete inputs. -/
def emptyRaw : RawRecord :=
  { radacctid := 1
    acctsessionid := Option.none
    acctuniqueid := Option.none
    username := Option.none
    realm := Option.none
    nasipaddress := Option.none
    nasportid := Option.none
    nasporttype := Option.none
    acctstarttime := Val.none
    acctupdatetime := Val.none
    acctstoptime := Val.none
    acctinterval := Option.none
    acctsessiontime := Option.none
    acctauthentic := Option.none
    connectinfo_start := Option.none
    connectinfo_stop := Option.none
    acctinputoctets := Option.none
    acctoutputoctets := Option.none
    calledstationid := Option.none
    callingstationid := Option.none
    acctterminatecause := Option.none
    servicetype := Option.none
    framedprotocol := Option.none
    framedipaddress := Option.none }

/-- An unforwarded `radacct` row with identifier `i` and all optional
columns `NULL`. -/
def demoRow (i : Int) : SourceRow :=
  { row := { emptyRaw with radacctid := i }, forwarded_to_ch := false }

/-- A small concrete `radacct` table: identifiers 2 and 1 unforwarded
(listed out of order), identifier 3 already forwarded. -/
def demoTable : List SourceRow :=
  [demoRow 2, demoRow 1,
   { row := { emptyRaw with radacctid := 3 }, forwarded_to_ch := true }]

/-- A concrete state with three unforwarded rows and an empty sink. -/
def demoState : FwdState :=
  { radacct := [demoRow 1, demoRow 2, demoRow 3], radius_accounting := [] }

/-- C2: the derived lifecycle-event classification is `stop` if the stop
timestamp is present (non-null), else `interim` if the update timestamp
is present, else `start`; the stop check takes precedence even when both
stop and update timestamps are present. -/
theorem determine_event_type_spec (row : RawRecord) :
    (row.acctstoptime ≠ Val.none → determine_event_type row = "stop") ∧
    (row.acctstoptime = Val.none → row.acctupdatetime ≠ Val.none →
      determine_event_type row = "interim") ∧
    (row.acctstoptime = Val.none → row.acctupdatetime = Val.none →
      determine_event_type row = "start") ∧
    (row.acctstoptime ≠ Val.none → row.acctupdatetime ≠ Val.none →
      determine_event_type row = "stop") := by
  unfold determine_event_type
  refine ⟨?_, ?_, ?_, ?_⟩ <;> intros <;> simp_all

/-- Witness for C2 at a concrete row carrying both an update and a stop
timestamp: stop wins. -/
theorem determine_event_type_spec_witness :
    determine_event_type
      { emptyRaw with acctupdatetime := Val.dt 5, acctstoptime := Val.dt 9 } = "stop" :=
  (determine_event_type_spec _).1 (by decide)

/-- C3: the transform maps absent/null textual fields to the empty
string, absent numeric fields to zero, and absent update/stop timestamps
to the explicit unset value `Option.none` (distinct from any real
instant, in particular not the current time), except the primary start
timestamp, whose absence is replaced by the transform's execution time
`now`. -/
theorem transform_null_defaults (now : Int) (siteId : String) (r : RawRecord) :
    (r.acctsessionid = Option.none → (transform now siteId r).acctsessionid = "") ∧
    (r.acctuniqueid = Option.none → (transform now siteId r).acctuniqueid = "") ∧
    (r.username = Option.none → (transform now siteId r).username = "") ∧
    (r.realm = Option.none → (transform now siteId r).realm = "") ∧
    (r.nasipaddress = Option.none → (transform now siteId r).nasipaddress = "") ∧
    (r.nasportid = Option.none → (transform now siteId r).nasportid = "") ∧
    (r.nasporttype = Option.none → (transform now siteId r).nasporttype = "") ∧
    (r.acctauthentic = Option.none → (transform now siteId r).acctauthentic = "") ∧
    (r.connectinfo_start = Option.none → (transform now siteId r).connectinfo_start = "") ∧
    (r.connectinfo_stop = Option.none → (transform now siteId r).connectinfo_stop = "") ∧
    (r.calledstationid = Option.none → (transform now siteId r).calledstationid = "") ∧
    (r.callingstationid = Option.none → (transform now siteId r).callingstationid = "") ∧
    (r.acctterminatecause = Option.none → (transform now siteId r).acctterminatecause = "") ∧
    (r.servicetype = Option.none → (transform now siteId r).servicetype = "") ∧
    (r.framedprotocol = Option.none → (transform now siteId r).framedprotocol = "") ∧
    (r.framedipaddress = Option.none → (transform now siteId r).framedipaddress = "") ∧
    (r.acctinterval = Option.none → (transform now siteId r).acctinterval = 0) ∧
    (r.acctsessiontime = Option.none → (transform now siteId r).acctsessiontime = 0) ∧
    (r.acctinputoctets = Option.none → (transform now siteId r).acctinputoctets = 0) ∧
    (r.acctoutputoctets = Option.none → (transform now siteId r).acctoutputoctets = 0) ∧
    (r.acctupdatetime = Val.none → (transform now siteId r).acctupdatetime = Option.none) ∧
    (r.acctstoptime = Val.none → (transform now siteId r).acctstoptime = Option.none) ∧
    (r.acctupdatetime = Val.none → ∀ t : Int,
      (transform now siteId r).acctupdatetime ≠ Option.some t) ∧
    (r.acctstoptime = Val.none → ∀ t : Int,
      (transform now siteId r).acctstoptime ≠ Option.some t) ∧
    (r.acctstarttime = Val.none → (transform now siteId r).acctstarttime = Val.dt now) := by
  unfold transform
  refine ⟨?_, ?_, ?_, ?_, ?_, ?_, ?_, ?_, ?_, ?_, ?_, ?_, ?_, ?_, ?_, ?_, ?_, ?_, ?_,
    ?_, ?_, ?_, ?_, ?_, ?_⟩ <;>
    intro h <;> simp [h, safe_str, safe_int, safe_datetime, pyOr, pyTruthy]

/-- Witness for C3: the all-null row transforms to empty-string/zero
defaults, unset update/stop timestamps, and a start timestamp equal to
the execution time. -/
theorem transform_null_defaults_witness :
    (transform 1700000000 "site-a" emptyRaw).username = "" ∧
    (transform 1700000000 "site-a" emptyRaw).acctinputoctets = 0 ∧
    (transform 1700000000 "site-a" emptyRaw).acctupdatetime = Option.none ∧
    (transform 1700000000 "site-a" emptyRaw).acctstarttime = Val.dt 1700000000 := by
  have h := transform_null_defaults 1700000000 "site-a" emptyRaw
  exact ⟨h.2.2.1 (by decide), h.2.2.2.2.2.2.2.2.2.2.2.2.2.2.2.2.2.2.1 (by decide),
    h.2.2.2.2.2.2.2.2.2.2.2.2.2.2.2.2.2.2.2.2.1 (by decide),
    h.2.2.2.2.2.2.2.2.2.2.2.2.2.2.2.2.2.2.2.2.2.2.2.2 (by decide)⟩

/-- C10: `safe_datetime` yields the unset value not only for `None` but
for ANY value that is not a `datetime` instance; consequently a present
but malformed (non-datetime) stop timestamp is classified `stop` by
`determine_event_type` (which only tests `is not None`) while the
forwarded stop timestamp is unset — classification and forwarded value
disagree for such a row.  Symmetrically for the update timestamp. -/
theorem safe_datetime_coerces_nondatetime (v : Val) (hdt : ∀ t : Int, v ≠ Val.dt t) :
    safe_datetime v = Option.none ∧
    (∀ (r : RawRecord) (now : Int) (siteId : String),
      r.acctstoptime = v → v ≠ Val.none →
        determine_event_type r = "stop" ∧
        (transform now siteId r).acctstoptime = Option.none) ∧
    (∀ (r : RawRecord) (now : Int) (siteId : String),
      r.acctstoptime = Val.none → r.acctupdatetime = v → v ≠ Val.none →
        determine_event_type r = "interim" ∧
        (transform now siteId r).acctupdatetime = Option.none) := by
  have hsd : safe_datetime v = Option.none := by
    cases v with
    | dt t => exact absurd rfl (hdt t)
    | none => rfl
    | vstr s => rfl
    | vint n => rfl
  refine ⟨hsd, ?_, ?_⟩
  · intro r now siteId hstop hne
    constructor
    · unfold determine_event_type
      rw [hstop]
      simp [hne]
    · show safe_datetime r.acctstoptime = Option.none
      rw [hstop]; exact hsd
  · intro r now siteId hstop hupd hne
    constructor
    · unfold determine_event_type
      rw [hstop, hupd]
      simp [hne]
    · show safe_datetime r.acctupdatetime = Option.none
      rw [hupd]; exact hsd

/-- Witness for C10: a row whose stop timestamp is the string
`"2024-01-01"` (present but not a datetime) is classified `stop` yet its
forwarded stop timestamp is unset. -/
theorem safe_datetime_coerces_nondatetime_witness :
    safe_datetime (Val.vstr "2024-01-01") = Option.none ∧
    determine_event_type { emptyRaw with acctstoptime := Val.vstr "2024-01-01" } = "stop" ∧
    (transform 0 "" { emptyRaw with acctstoptime := Val.vstr "2024-01-01" }).acctstoptime
      = Option.none := by
  have h := safe_datetime_coerces_nondatetime (Val.vstr "2024-01-01")
    (fun t hEq => Val.noConfusion hEq)
  have h2 := h.2.1 { emptyRaw with acctstoptime := Val.vstr "2024-01-01" } 0 ""
    rfl (fun hEq => Val.noConfusion hEq)
  exact ⟨h.1, h2.1, h2.2⟩

/-- C1: the mark-forwarded step runs only after the bulk write to
ClickHouse has succeeded; if the bulk write raises, the cycle aborts
with the propagated error, the whole state (in particular every
forward flag) is left unchanged, and a subsequent fetch returns the
same set. -/
theorem forward_batch_write_failure (limit : Nat) (now : Int) (siteId : String)
    (markOk : Bool) (s : FwdState) :
    (forward_batch limit now siteId true false markOk s).1 = s ∧
    FETCH_QUERY limit (forward_batch limit now siteId true false markOk s).1.radacct
      = FETCH_QUERY limit s.radacct ∧
    (FETCH_QUERY limit s.radacct ≠ [] →
      (forward_batch limit now siteId true false markOk s).2
        = Except.error "ClickHouse insert failed") := by
  unfold forward_batch
  by_cases h : (FETCH_QUERY limit s.radacct).isEmpty
  · simp only [List.isEmpty_iff] at h
    simp [h]
  · simp [h]

/-- Witness for C1: with three unforwarded rows pending and the
ClickHouse insert failing, the state is untouched and the error
propagates. -/
theorem forward_batch_write_failure_witness :
    (forward_batch 2 0 "" true false true demoState).1 = demoState ∧
    (forward_batch 2 0 "" true false true demoState).2
      = Except.error "ClickHouse insert failed" := by
  have h := forward_batch_write_failure 2 0 "" true demoState
  exact ⟨h.1, h.2.2 (by decide)⟩

/-- Helper: the fully successful non-empty cycle, written out. -/
theorem forward_batch_success_eq (limit : Nat) (now : Int) (siteId : String)
    (s : FwdState) (h : FETCH_QUERY limit s.radacct ≠ []) :
    forward_batch limit now siteId true true true s =
      ({ radacct := MARK_FORWARDED_QUERY
            ((FETCH_QUERY limit s.radacct).map RawRecord.radacctid) s.radacct,
         radius_accounting := s.radius_accounting ++
            (FETCH_QUERY limit s.radacct).map (transform now siteId) },
       Except.ok (FETCH_QUERY limit s.radacct).length) := by
  simp [forward_batch, List.isEmpty_iff, h]

/-- C5: a ForwardCycle fetches; an empty fetch returns 0 with no write
and no marking; otherwise with all steps succeeding it transforms every
fetched record, appends all of them to the sink, marks exactly their
identifiers forwarded and returns the number of fetched records; any
exception propagates to the caller as an error and leaves the source
table — in particular every forward flag — exactly as before (no
partial marking). -/
theorem forward_batch_run_spec (limit : Nat) (now : Int) (siteId : String)
    (fetchOk writeOk markOk : Bool) (s : FwdState) :
    (FETCH_QUERY limit s.radacct = [] →
      forward_batch limit now siteId true writeOk markOk s = (s, Except.ok 0)) ∧
    (FETCH_QUERY limit s.radacct ≠ [] →
      forward_batch limit now siteId true true true s =
        ({ radacct := MARK_FORWARDED_QUERY
              ((FETCH_QUERY limit s.radacct).map RawRecord.radacctid) s.radacct,
           radius_accounting := s.radius_accounting ++
              (FETCH_QUERY limit s.radacct).map (transform now siteId) },
         Except.ok (FETCH_QUERY limit s.radacct).length)) ∧
    (∀ s1 e, forward_batch limit now siteId fetchOk writeOk markOk s = (s1, Except.error e) →
      s1.radacct = s.radacct) ∧
    (fetchOk = false → ∃ e,
      (forward_batch limit now siteId fetchOk writeOk markOk s).2 = Except.error e) ∧
    (FETCH_QUERY limit s.radacct ≠ [] → writeOk = false → ∃ e,
      (forward_batch limit now siteId true writeOk markOk s).2 = Except.error e) ∧
    (FETCH_QUERY limit s.radacct ≠ [] → markOk = false → ∃ e,
      (forward_batch limit now siteId true true markOk s).2 = Except.error e) := by
  refine ⟨?_, ?_, ?_, ?_, ?_, ?_⟩
  · intro h
    simp [forward_batch, List.isEmpty_iff, h]
  · intro h
    exact forward_batch_success_eq limit now siteId s h
  · intro s1 e hEq
    unfold forward_batch at hEq
    by_cases hf : fetchOk
    · by_cases hrows : (FETCH_QUERY limit s.radacct).isEmpty
      · simp [hf, hrows] at hEq
      · by_cases hw : writeOk
        · by_cases hm : markOk
          · simp [hf, hrows, hw, hm] at hEq
          · simp [hf, hrows, hw, hm] at hEq
            rw [← hEq.1]
        · simp [hf, hrows, hw] at hEq
          rw [← hEq.1]
    · simp [hf] at hEq
      rw [← hEq.1]
  · intro hf
    subst hf
    exact ⟨"fetch failed", by simp [forward_batch]⟩
  · intro h hw
    subst hw
    exact ⟨"ClickHouse insert failed", by simp [forward_batch, List.isEmpty_iff, h]⟩
  · intro h hm
    subst hm
    exact ⟨"mark forwarded failed", by simp [forward_batch, List.isEmpty_iff, h]⟩

/-- Witness for C5: a fully successful cycle on the three-row demo state
with batch size 2 forwards the fetched records and marks exactly them;
the fetch is non-empty there. -/
theorem forward_batch_run_spec_witness :
    FETCH_QUERY 2 demoState.radacct ≠ [] ∧
    forward_batch 2 0 "" true true true demoState =
      ({ radacct := MARK_FORWARDED_QUERY
            ((FETCH_QUERY 2 demoState.radacct).map RawRecord.radacctid) demoState.radacct,
         radius_accounting := demoState.radius_accounting ++
            (FETCH_QUERY 2 demoState.radacct).map (transform 0 "") },
       Except.ok (FETCH_QUERY 2 demoState.radacct).length) :=
  ⟨by decide, (forward_batch_run_spec 2 0 "" true true true demoState).2.1 (by decide)⟩

/-- C9: in every non-empty successful ForwardCycle the identifiers
passed to the mark-forwarded update are exactly the primary identifiers
of the rows written to the sink in that cycle, in the same order and
with the same length (one sink row per fetched source row); and a row
that is forwarded after the marking either carries an identifier of the
fetched batch or is an untouched pre-existing row of the table. -/
theorem forward_batch_mark_matches_write (limit : Nat) (now : Int) (siteId : String)
    (s : FwdState) (h : FETCH_QUERY limit s.radacct ≠ []) :
    ((FETCH_QUERY limit s.radacct).map RawRecord.radacctid
      = ((FETCH_QUERY limit s.radacct).map (transform now siteId)).map CHRow.radacctid) ∧
    ((FETCH_QUERY limit s.radacct).map (transform now siteId)).length
      = (FETCH_QUERY limit s.radacct).length ∧
    (forward_batch limit now siteId true true true s).1.radacct
      = MARK_FORWARDED_QUERY ((FETCH_QUERY limit s.radacct).map RawRecord.radacctid)
          s.radacct ∧
    (forward_batch limit now siteId true true true s).1.radius_accounting
      = s.radius_accounting ++ (FETCH_QUERY limit s.radacct).map (transform now siteId) ∧
    (∀ sr2 ∈ MARK_FORWARDED_QUERY
        ((FETCH_QUERY limit s.radacct).map RawRecord.radacctid) s.radacct,
      sr2.forwarded_to_ch = true →
        sr2.row.radacctid ∈ (FETCH_QUERY limit s.radacct).map RawRecord.radacctid ∨
        sr2 ∈ s.radacct) := by
  have hrun := forward_batch_success_eq limit now siteId s h
  refine ⟨?_, ?_, ?_, ?_, ?_⟩
  · rw [List.map_map]
    rfl
  · exact List.length_map _ _
  · rw [hrun]
  · rw [hrun]
  · intro sr2 hmem hfwd
    unfold MARK_FORWARDED_QUERY at hmem
    rcases List.mem_map.mp hmem with ⟨sr, hsr, hEq⟩
    by_cases hid : sr.row.radacctid ∈ (FETCH_QUERY limit s.radacct).map RawRecord.radacctid
    · left
      rw [← hEq]
      simp [hid]
    · right
      rw [← hEq]
      simpa [hid] using hsr

/-- Witness for C9 on the demo state with batch size 2: the marked
identifier list coincides with the identifiers of the written sink
rows, and the post-cycle table is exactly the marked table. -/
theorem forward_batch_mark_matches_write_witness :
    (FETCH_QUERY 2 demoState.radacct).map RawRecord.radacctid
      = ((FETCH_QUERY 2 demoState.radacct).map (transform 0 "")).map CHRow.radacctid ∧
    (forward_batch 2 0 "" true true true demoState).1.radacct
      = MARK_FORWARDED_QUERY
          ((FETCH_QUERY 2 demoState.radacct).map RawRecord.radacctid) demoState.radacct :=
  ⟨(forward_batch_mark_matches_write 2 0 "" demoState (by decide)).1,
   (forward_batch_mark_matches_write 2 0 "" demoState (by decide)).2.2.1⟩

/-- Helper: a fetched record comes from a row of the table whose
forward flag is false. -/
theorem mem_FETCH_QUERY {limit : Nat} {table : List SourceRow} {r : RawRecord}
    (h : r ∈ FETCH_QUERY limit table) :
    ∃ sr ∈ table, sr.row = r ∧ sr.forwarded_to_ch = false := by
  unfold FETCH_QUERY at h
  have h1 : r ∈ List.insertionSort radacctidLe
      ((table.filter (fun sr => !sr.forwarded_to_ch)).map SourceRow.row) :=
    List.take_subset _ _ h
  have h2 : r ∈ (table.filter (fun sr => !sr.forwarded_to_ch)).map SourceRow.row :=
    (List.perm_insertionSort radacctidLe _).mem_iff.mp h1
  rcases List.mem_map.mp h2 with ⟨sr, hsr, hEq⟩
  rcases List.mem_filter.mp hsr with ⟨hmem, hflag⟩
  exact ⟨sr, hmem, hEq, by simpa using hflag⟩

/-- Helper: with pairwise-distinct identifiers in the table, the fetched
identifiers are pairwise distinct as well. -/
theorem FETCH_QUERY_ids_nodup {limit : Nat} {table : List SourceRow}
    (hids : (table.map (fun sr => sr.row.radacctid)).Nodup) :
    ((FETCH_QUERY limit table).map RawRecord.radacctid).Nodup := by
  have hfil : ((table.filter (fun sr => !sr.forwarded_to_ch)).map
      (fun sr => sr.row.radacctid)).Nodup :=
    List.Nodup.sublist (List.Sublist.map _ (List.filter_sublist table)) hids
  have hmm : ((table.filter (fun sr => !sr.forwarded_to_ch)).map SourceRow.row).map
      RawRecord.radacctid = (table.filter (fun sr => !sr.forwarded_to_ch)).map
      (fun sr => sr.row.radacctid) := by
    rw [List.map_map]
    rfl
  have hperm := (List.perm_insertionSort radacctidLe
    ((table.filter (fun sr => !sr.forwarded_to_ch)).map SourceRow.row)).map
    RawRecord.radacctid
  have hsortnd : ((List.insertionSort radacctidLe
      ((table.filter (fun sr => !sr.forwarded_to_ch)).map SourceRow.row)).map
      RawRecord.radacctid).Nodup :=
    hperm.symm.nodup (by rw [hmm]; exact hfil)
  exact List.Nodup.sublist (List.Sublist.map _ (List.take_sublist _ _)) hsortnd

/-- C4: every fetch returns only records whose forward flag is false
(hence disjoint from every previously marked-forwarded identifier), in
strictly ascending order of the primary identifier, and at most `limit`
records; with no intervening writes (the same table), repeated fetches
return the same set. -/
theorem FETCH_QUERY_spec (limit : Nat) (table : List SourceRow)
    (hids : (table.map (fun sr => sr.row.radacctid)).Nodup) :
    (∀ r ∈ FETCH_QUERY limit table,
      ∃ sr ∈ table, sr.row = r ∧ sr.forwarded_to_ch = false) ∧
    (∀ r ∈ FETCH_QUERY limit table, ∀ sr ∈ table, sr.forwarded_to_ch = true →
      r.radacctid ≠ sr.row.radacctid) ∧
    List.Pairwise (fun a b => a.radacctid < b.radacctid) (FETCH_QUERY limit table) ∧
    (FETCH_QUERY limit table).length ≤ limit ∧
    (∀ table2, table2 = table → FETCH_QUERY limit table2 = FETCH_QUERY limit table) := by
  refine ⟨fun r hr => mem_FETCH_QUERY hr, ?_, ?_, ?_, fun _ h => by rw [h]⟩
  · intro r hr sr hsr hfwd hEqId
    rcases mem_FETCH_QUERY hr with ⟨sr0, hsr0, hrow, hflag⟩
    have hss : sr0 = sr :=
      List.inj_on_of_nodup_map hids hsr0 hsr (by rw [hrow, ← hEqId])
    rw [hss, hfwd] at hflag
    exact Bool.noConfusion hflag
  · have hsorted := List.sorted_insertionSort radacctidLe
      ((table.filter (fun sr => !sr.forwarded_to_ch)).map SourceRow.row)
    have htake : List.Pairwise radacctidLe (FETCH_QUERY limit table) :=
      List.Pairwise.sublist (List.take_sublist _ _) hsorted
    have hne : List.Pairwise (fun a b => a.radacctid ≠ b.radacctid)
        (FETCH_QUERY limit table) :=
      List.pairwise_map.mp (FETCH_QUERY_ids_nodup hids)
    exact (htake.and hne).imp (fun h => lt_of_le_of_ne h.1 h.2)
  · exact List.length_take_le _ _

/-- Witness for C4 on the demo table (identifiers 2, 1 unforwarded out
of order, 3 forwarded): its identifiers are distinct, the fetch is
strictly ascending and holds at most 2 records. -/
theorem FETCH_QUERY_spec_witness :
    (demoTable.map (fun sr => sr.row.radacctid)).Nodup ∧
    List.Pairwise (fun a b => a.radacctid < b.radacctid) (FETCH_QUERY 2 demoTable) ∧
    (FETCH_QUERY 2 demoTable).length ≤ 2 :=
  ⟨by decide, (FETCH_QUERY_spec 2 demoTable (by decide)).2.2.1,
   (FETCH_QUERY_spec 2 demoTable (by decide)).2.2.2.1⟩

/-- Helper: the fetch length is the batch size capped by the number of
unforwarded rows. -/
theorem FETCH_QUERY_length (limit : Nat) (table : List SourceRow) :
    (FETCH_QUERY limit table).length = min limit (unforwardedCount table) := by
  unfold FETCH_QUERY unforwardedCount
  rw [List.length_take, (List.perm_insertionSort radacctidLe _).length_eq, List.length_map]

/-- Helper: sorting the unforwarded records keeps their identifiers
pairwise distinct. -/
theorem insertionSort_ids_nodup {table : List SourceRow}
    (hids : (table.map (fun sr => sr.row.radacctid)).Nodup) :
    ((List.insertionSort radacctidLe
        ((table.filter (fun sr => !sr.forwarded_to_ch)).map SourceRow.row)).map
      RawRecord.radacctid).Nodup := by
  have hfil : ((table.filter (fun sr => !sr.forwarded_to_ch)).map
      (fun sr => sr.row.radacctid)).Nodup :=
    List.Nodup.sublist (List.Sublist.map _ (List.filter_sublist table)) hids
  have hmm : ((table.filter (fun sr => !sr.forwarded_to_ch)).map SourceRow.row).map
      RawRecord.radacctid = (table.filter (fun sr => !sr.forwarded_to_ch)).map
      (fun sr => sr.row.radacctid) := by
    rw [List.map_map]
    rfl
  exact ((List.perm_insertionSort radacctidLe _).map RawRecord.radacctid).symm.nodup
    (by rw [hmm]; exact hfil)

/-- Helper: marking rows forwarded changes no identifier. -/
theorem mark_map_ids (ids : List Int) (table : List SourceRow) :
    (MARK_FORWARDED_QUERY ids table).map (fun sr => sr.row.radacctid)
      = table.map (fun sr => sr.row.radacctid) := by
  unfold MARK_FORWARDED_QUERY
  rw [List.map_map]
  exact List.map_congr_left (fun sr _ => by
    by_cases h : sr.row.radacctid ∈ ids <;> simp [h])

/-- Helper: in a list with pairwise-distinct identifiers split as
`tk ++ dp`, exactly the records of `dp` carry an identifier outside
`tk`'s identifiers. -/
theorem countP_batch_unmarked (tk dp : List RawRecord)
    (hnd : ((tk ++ dp).map RawRecord.radacctid).Nodup) :
    List.countP (fun r => !(decide (r.radacctid ∈ tk.map RawRecord.radacctid))) (tk ++ dp)
      = dp.length := by
  rw [List.countP_append]
  have h1 : List.countP
      (fun r => !(decide (r.radacctid ∈ tk.map RawRecord.radacctid))) tk = 0 := by
    refine List.countP_eq_zero.mpr ?_
    intro r hr
    simp only [Bool.not_eq_true', decide_eq_false_iff_not, not_not]
    exact List.mem_map_of_mem RawRecord.radacctid hr
  have hdisj : (tk.map RawRecord.radacctid).Disjoint (dp.map RawRecord.radacctid) := by
    rw [List.map_append, List.nodup_append] at hnd
    exact hnd.2.2
  have h2 : List.countP
      (fun r => !(decide (r.radacctid ∈ tk.map RawRecord.radacctid))) dp = dp.length := by
    refine List.countP_eq_length.mpr ?_
    intro r hr
    simp only [Bool.not_eq_true', decide_eq_false_iff_not]
    intro hmem
    exact hdisj hmem (List.mem_map_of_mem RawRecord.radacctid hr)
  rw [h1, h2, Nat.zero_add]

/-- Helper: a successful cycle's marking removes exactly the fetched
rows from the unforwarded set. -/
theorem unforwardedCount_mark (limit : Nat) (table : List SourceRow)
    (hids : (table.map (fun sr => sr.row.radacctid)).Nodup) :
    unforwardedCount (MARK_FORWARDED_QUERY
        ((FETCH_QUERY limit table).map RawRecord.radacctid) table)
      = unforwardedCount table - (FETCH_QUERY limit table).length := by
  have hstep1 : unforwardedCount (MARK_FORWARDED_QUERY
      ((FETCH_QUERY limit table).map RawRecord.radacctid) table)
      = List.countP (fun sr => (!(decide (sr.row.radacctid ∈
          (FETCH_QUERY limit table).map RawRecord.radacctid))) && (!sr.forwarded_to_ch))
        table := by
    unfold unforwardedCount MARK_FORWARDED_QUERY
    rw [← List.countP_eq_length_filter, List.countP_map]
    refine List.countP_congr ?_
    intro sr _
    by_cases h : sr.row.radacctid ∈ (FETCH_QUERY limit table).map RawRecord.radacctid <;>
      simp [Function.comp, h]
  have hstep2 : List.countP (fun sr => (!(decide (sr.row.radacctid ∈
      (FETCH_QUERY limit table).map RawRecord.radacctid))) && (!sr.forwarded_to_ch)) table
      = List.countP (fun r => !(decide (r.radacctid ∈
          (FETCH_QUERY limit table).map RawRecord.radacctid)))
        ((table.filter (fun sr => !sr.forwarded_to_ch)).map SourceRow.row) := by
    conv_rhs => rw [List.countP_map, List.countP_filter]
    rfl
  have hstep3 : List.countP (fun r => !(decide (r.radacctid ∈
      (FETCH_QUERY limit table).map RawRecord.radacctid)))
      ((table.filter (fun sr => !sr.forwarded_to_ch)).map SourceRow.row)
      = List.countP (fun r => !(decide (r.radacctid ∈
          (FETCH_QUERY limit table).map RawRecord.radacctid)))
        (List.insertionSort radacctidLe
          ((table.filter (fun sr => !sr.forwarded_to_ch)).map SourceRow.row)) :=
    ((List.perm_insertionSort radacctidLe _).countP_eq _).symm
  have hkey := countP_batch_unmarked
    ((List.insertionSort radacctidLe
      ((table.filter (fun sr => !sr.forwarded_to_ch)).map SourceRow.row)).take limit)
    ((List.insertionSort radacctidLe
      ((table.filter (fun sr => !sr.forwarded_to_ch)).map SourceRow.row)).drop limit)
    (by rw [List.take_append_drop]; exact insertionSort_ids_nodup hids)
  rw [List.take_append_drop] at hkey
  have hstep4 : List.countP (fun r => !(decide (r.radacctid ∈
      (FETCH_QUERY limit table).map RawRecord.radacctid)))
      (List.insertionSort radacctidLe
        ((table.filter (fun sr => !sr.forwarded_to_ch)).map SourceRow.row))
      = ((List.insertionSort radacctidLe
          ((table.filter (fun sr => !sr.forwarded_to_ch)).map SourceRow.row)).drop
          limit).length := hkey
  have hlen1 : (List.insertionSort radacctidLe
      ((table.filter (fun sr => !sr.forwarded_to_ch)).map SourceRow.row)).length
      = unforwardedCount table := by
    rw [(List.perm_insertionSort radacctidLe _).length_eq, List.length_map]
    rfl
  rw [hstep1, hstep2, hstep3, hstep4, List.length_drop, hlen1, FETCH_QUERY_length]
  omega

/-- Helper: a cycle over an empty fetch returns 0 and changes nothing,
whatever the write/mark failure flags. -/
theorem forward_batch_empty_eq (limit : Nat) (now : Int) (siteId : String)
    (wok mok : Bool) (s : FwdState) (h : FETCH_QUERY limit s.radacct = []) :
    forward_batch limit now siteId true wok mok s = (s, Except.ok 0) := by
  simp [forward_batch, List.isEmpty_iff, h]

/-- Helper: one fully successful non-empty cycle returns the fetched
count and removes exactly that many rows from the unforwarded set,
keeping identifiers pairwise distinct. -/
theorem forward_batch_allok_step (N : Nat) (now : Int) (siteId : String) (s : FwdState)
    (hnd : (s.radacct.map (fun sr => sr.row.radacctid)).Nodup)
    (hpos : 0 < (FETCH_QUERY N s.radacct).length) :
    ∃ s1, forward_batch N now siteId true true true s
        = (s1, Except.ok (FETCH_QUERY N s.radacct).length) ∧
      unforwardedCount s1.radacct
        = unforwardedCount s.radacct - (FETCH_QUERY N s.radacct).length ∧
      (s1.radacct.map (fun sr => sr.row.radacctid)).Nodup := by
  have hne : FETCH_QUERY N s.radacct ≠ [] := by
    intro h
    rw [h] at hpos
    simp at hpos
  refine ⟨_, forward_batch_success_eq N now siteId s hne, ?_, ?_⟩
  · exact unforwardedCount_mark N s.radacct hnd
  · show ((MARK_FORWARDED_QUERY _ s.radacct).map (fun sr => sr.row.radacctid)).Nodup
    rw [mark_map_ids]
    exact hnd

/-- Helper: with nothing left unforwarded, one loop iteration runs a
single empty cycle and stops the drain. -/
theorem pollDrain_done (N : Nat) (nowSeq : Nat → Int) (siteId : String)
    (runningSeq fok wok mok : Nat → Bool)
    (hrun : ∀ j, runningSeq j = true) (hfok : ∀ j, fok j = true)
    (hwok : ∀ j, wok j = true) (hmok : ∀ j, mok j = true)
    (fuel i : Nat) (s : FwdState) (h0 : unforwardedCount s.radacct = 0)
    (hfuel : 1 ≤ fuel) :
    pollDrainLoop N nowSeq siteId runningSeq fok wok mok fuel i s
      = (s, [0], Except.ok ()) := by
  obtain ⟨f, rfl⟩ : ∃ f, fuel = f + 1 := ⟨fuel - 1, by omega⟩
  have hlen := FETCH_QUERY_length N s.radacct
  rw [h0] at hlen
  simp only [Nat.min_zero] at hlen
  have hnil : FETCH_QUERY N s.radacct = [] := List.length_eq_zero.mp hlen
  have hfb : forward_batch N (nowSeq i) siteId (fok i) (wok i) (mok i) s
      = (s, Except.ok 0) := by
    rw [hfok i, hwok i, hmok i]
    exact forward_batch_empty_eq N (nowSeq i) siteId true true s hnil
  simp [pollDrainLoop, hrun i, hfb]

/-- Helper for C6, by induction on the number K of full batches: a
poll drain over K·N+R unforwarded rows (R < N) with the shutdown signal
unset and every cycle succeeding runs K + (0 or 1) non-empty cycles,
counts all positive, then a single cycle returning zero that ends the
loop normally, leaving nothing unforwarded. -/
theorem pollDrain_drains (N : Nat) (nowSeq : Nat → Int) (siteId : String)
    (runningSeq fok wok mok : Nat → Bool)
    (hrun : ∀ j, runningSeq j = true) (hfok : ∀ j, fok j = true)
    (hwok : ∀ j, wok j = true) (hmok : ∀ j, mok j = true) (hN : 0 < N) :
    ∀ (K : Nat), ∀ (R fuel i : Nat) (s : FwdState),
      (s.radacct.map (fun sr => sr.row.radacctid)).Nodup →
      unforwardedCount s.radacct = K * N + R → R < N → K + 2 ≤ fuel →
      ∃ sF pre,
        pollDrainLoop N nowSeq siteId runningSeq fok wok mok fuel i s
          = (sF, pre ++ [0], Except.ok ()) ∧
        pre.length = K + (if R = 0 then 0 else 1) ∧
        (∀ c ∈ pre, 0 < c) ∧
        unforwardedCount sF.radacct = 0 := by
  obtain ⟨n1, rfl⟩ : ∃ n1, N = n1 + 1 := ⟨N - 1, by omega⟩
  intro K
  induction K with
  | zero =>
    intro R fuel i s hnd hM hR hfuel
    by_cases hR0 : R = 0
    · subst hR0
      simp only [Nat.zero_mul, Nat.add_zero] at hM
      refine ⟨s, [], ?_, by simp, by simp, hM⟩
      simpa using pollDrain_done (n1+1) nowSeq siteId runningSeq fok wok mok
        hrun hfok hwok hmok fuel i s hM (by omega)
    · obtain ⟨f, rfl⟩ : ∃ f, fuel = f + 1 := ⟨fuel - 1, by omega⟩
      simp only [Nat.zero_mul, Nat.zero_add] at hM
      have hlen : (FETCH_QUERY (n1+1) s.radacct).length = R := by
        rw [FETCH_QUERY_length, hM]
        omega
      obtain ⟨s1, hfb, hcount1, hnd1⟩ := forward_batch_allok_step (n1+1) (nowSeq i) siteId s
        hnd (by rw [hlen]; omega)
      have hcount10 : unforwardedCount s1.radacct = 0 := by
        rw [hcount1, hM, hlen]
        omega
      have hrest := pollDrain_done (n1+1) nowSeq siteId runningSeq fok wok mok
        hrun hfok hwok hmok f (i+1) s1 hcount10 (by omega)
      have hfb2 : forward_batch (n1+1) (nowSeq i) siteId (fok i) (wok i) (mok i) s
          = (s1, Except.ok R) := by
        rw [hfok i, hwok i, hmok i, hfb, hlen]
      obtain ⟨r, rfl⟩ : ∃ r, R = r + 1 := ⟨R - 1, by omega⟩
      refine ⟨s1, [r+1], ?_, by simp, ?_, hcount10⟩
      · simp [pollDrainLoop, hrun i, hfb2, hrest]
      · intro c hc
        simp at hc
        omega
  | succ K ih =>
    intro R fuel i s hnd hM hR hfuel
    obtain ⟨f, rfl⟩ : ∃ f, fuel = f + 1 := ⟨fuel - 1, by omega⟩
    have hKN : (K+1) * (n1+1) = K * (n1+1) + (n1+1) := by ring
    have hlen : (FETCH_QUERY (n1+1) s.radacct).length = n1 + 1 := by
      rw [FETCH_QUERY_length, hM]
      omega
    obtain ⟨s1, hfb, hcount1, hnd1⟩ := forward_batch_allok_step (n1+1) (nowSeq i) siteId s
      hnd (by rw [hlen]; omega)
    have hcount1K : unforwardedCount s1.radacct = K * (n1+1) + R := by
      rw [hcount1, hM, hlen]
      omega
    obtain ⟨sF, pre, hloop, hprelen, hprepos, hfinal⟩ :=
      ih R f (i+1) s1 hnd1 hcount1K hR (by omega)
    have hfb2 : forward_batch (n1+1) (nowSeq i) siteId (fok i) (wok i) (mok i) s
        = (s1, Except.ok (n1+1)) := by
      rw [hfok i, hwok i, hmok i, hfb, hlen]
    refine ⟨sF, (n1+1) :: pre, ?_, ?_, ?_, hfinal⟩
    · simp [pollDrainLoop, hrun i, hfb2, hloop]
    · by_cases hR0 : R = 0 <;> simp [hprelen, hR0]
    · intro c hc
      rcases List.mem_cons.mp hc with hc1 | hc2
      · omega
      · exact hprepos c hc2

/-- C6: on the poll path, with the shutdown signal unset throughout,
every step succeeding, and K·N+R unforwarded records pending (R < N,
batch size N > 0), the drain loop performs exactly ⌈(K·N+R)/N⌉
non-empty ForwardCycles (written with Nat arithmetic as
(K·N+R+N-1)/N) followed by exactly one ForwardCycle returning zero,
which terminates the drain normally. -/
theorem pollDrainLoop_spec (N : Nat) (nowSeq : Nat → Int) (siteId : String)
    (runningSeq fok wok mok : Nat → Bool) (K R fuel i : Nat) (s : FwdState)
    (hrun : ∀ j, runningSeq j = true) (hfok : ∀ j, fok j = true)
    (hwok : ∀ j, wok j = true) (hmok : ∀ j, mok j = true) (hN : 0 < N)
    (hnd : (s.radacct.map (fun sr => sr.row.radacctid)).Nodup)
    (hM : unforwardedCount s.radacct = K * N + R) (hR : R < N) (hfuel : K + 2 ≤ fuel) :
    ∃ sF pre,
      pollDrainLoop N nowSeq siteId runningSeq fok wok mok fuel i s
        = (sF, pre ++ [0], Except.ok ()) ∧
      pre.length = (K * N + R + N - 1) / N ∧
      (∀ c ∈ pre, 0 < c) ∧
      unforwardedCount sF.radacct = 0 := by
  obtain ⟨sF, pre, h1, h2, h3, h4⟩ := pollDrain_drains N nowSeq siteId runningSeq fok wok mok
    hrun hfok hwok hmok hN K R fuel i s hnd hM hR hfuel
  refine ⟨sF, pre, h1, ?_, h3, h4⟩
  rw [h2]
  by_cases hR0 : R = 0
  · subst hR0
    have e : K * N + 0 + N - 1 = N * K + (N - 1) := by
      have hc : K * N = N * K := Nat.mul_comm K N
      omega
    rw [e, Nat.mul_add_div hN]
    have h9 : (N - 1) / N = 0 := Nat.div_eq_of_lt (by omega)
    simp [h9]
  · have e : K * N + R + N - 1 = N * (K + 1) + (R - 1) := by
      have hc : K * N = N * K := Nat.mul_comm K N
      have hd : N * (K + 1) = N * K + N := by ring
      omega
    rw [e, Nat.mul_add_div hN]
    have h9 : (R - 1) / N = 0 := Nat.div_eq_of_lt (by omega)
    simp [h9, hR0]

/-- Witness for C6: batch size 2 over the three-row demo state
(K = 1, R = 1), so ⌈3/2⌉ = 2 non-empty cycles then one zero cycle. -/
theorem pollDrainLoop_spec_witness :
    unforwardedCount demoState.radacct = 1 * 2 + 1 ∧
    ∃ sF pre,
      pollDrainLoop 2 (fun _ => 0) "" (fun _ => true) (fun _ => true) (fun _ => true)
          (fun _ => true) 4 0 demoState
        = (sF, pre ++ [0], Except.ok ()) ∧
      pre.length = (1 * 2 + 1 + 2 - 1) / 2 ∧
      (∀ c ∈ pre, 0 < c) ∧
      unforwardedCount sF.radacct = 0 :=
  ⟨by decide,
   pollDrainLoop_spec 2 (fun _ => 0) "" (fun _ => true) (fun _ => true) (fun _ => true)
     (fun _ => true) 1 1 4 0 demoState (fun _ => rfl) (fun _ => rfl) (fun _ => rfl)
     (fun _ => rfl) (by omega) (by decide) (by decide) (by omega) (by omega)⟩

/-- Helper: every delay the retry loop performs is exactly 5 seconds. -/
theorem connect_postgres_sleeps (runningSeq attemptOk : Nat → Bool) :
    ∀ (fuel k : Nat) (res : ConnectOutcome) (sleeps : List Nat),
      connect_postgres runningSeq attemptOk fuel k = Option.some (res, sleeps) →
      ∀ d ∈ sleeps, d = 5 := by
  intro fuel
  induction fuel with
  | zero =>
    intro k res sleeps h
    simp only [connect_postgres] at h
    exact Option.noConfusion h
  | succ f ih =>
    intro k res sleeps h
    simp only [connect_postgres] at h
    cases hr : runningSeq k with
    | false =>
      rw [hr] at h
      simp at h
      rw [h.2]
      intro d hd
      simp at hd
    | true =>
      rw [hr] at h
      cases ha : attemptOk k with
      | true =>
        rw [ha] at h
        simp at h
        rw [h.2]
        intro d hd
        simp at hd
      | false =>
        rw [ha] at h
        simp only [Bool.false_eq_true, if_false, if_true] at h
        cases hrec : connect_postgres runningSeq attemptOk f (k+1) with
        | none =>
          rw [hrec] at h
          exact Option.noConfusion h
        | some p =>
          obtain ⟨res2, sl2⟩ := p
          rw [hrec] at h
          simp at h
          intro d hd
          rw [← h.2] at hd
          rcases List.mem_cons.mp hd with h5 | hmem
          · exact h5
          · exact ih (k+1) res2 sl2 hrec d hmem

/-- Helper: the loop ends in the fatal `RuntimeError` only when some
loop-head check observed the shutdown signal. -/
theorem connect_postgres_fatal_shutdown (runningSeq attemptOk : Nat → Bool) :
    ∀ (fuel k : Nat) (sleeps : List Nat),
      connect_postgres runningSeq attemptOk fuel k
        = Option.some (ConnectOutcome.fatal, sleeps) →
      ∃ j, k ≤ j ∧ runningSeq j = false := by
  intro fuel
  induction fuel with
  | zero =>
    intro k sleeps h
    simp only [connect_postgres] at h
    exact Option.noConfusion h
  | succ f ih =>
    intro k sleeps h
    simp only [connect_postgres] at h
    cases hr : runningSeq k with
    | false => exact ⟨k, Nat.le_refl k, hr⟩
    | true =>
      rw [hr] at h
      cases ha : attemptOk k with
      | true =>
        rw [ha] at h
        simp at h
      | false =>
        rw [ha] at h
        simp only [Bool.false_eq_true, if_false, if_true] at h
        cases hrec : connect_postgres runningSeq attemptOk f (k+1) with
        | none =>
          rw [hrec] at h
          exact Option.noConfusion h
        | some p =>
          obtain ⟨res2, sl2⟩ := p
          rw [hrec] at h
          simp at h
          obtain ⟨j, hj, hjf⟩ := ih (k+1) sl2 (by rw [hrec, h.1])
          exact ⟨j, by omega, hjf⟩

/-- Helper: `connect_clickhouse` has the same retry structure (and
therefore the same behavior) as `connect_postgres`. -/
theorem connect_clickhouse_eq_postgres (runningSeq attemptOk : Nat → Bool) :
    ∀ (fuel k : Nat),
      connect_clickhouse runningSeq attemptOk fuel k
        = connect_postgres runningSeq attemptOk fuel k := by
  intro fuel
  induction fuel with
  | zero =>
    intro k
    simp only [connect_clickhouse, connect_postgres]
  | succ f ih =>
    intro k
    simp only [connect_clickhouse, connect_postgres, ih (k+1)]

/-- C8: connection acquisition (for either store) retries with a fixed
5-second delay between failed attempts for as long as the shutdown
signal is unset, raises the terminal `RuntimeError` only when a
loop-head check observes the shutdown signal set — and does so
immediately when it is — and a failed attempt is never fatal while
shutdown is unset; `connect_clickhouse` behaves identically to
`connect_postgres`. -/
theorem connect_retry_spec (runningSeq attemptOk : Nat → Bool) (fuel k : Nat) :
    (∀ res sleeps,
      connect_postgres runningSeq attemptOk fuel k = Option.some (res, sleeps) →
      ∀ d ∈ sleeps, d = 5) ∧
    (∀ sleeps,
      connect_postgres runningSeq attemptOk fuel k
        = Option.some (ConnectOutcome.fatal, sleeps) →
      ∃ j, k ≤ j ∧ runningSeq j = false) ∧
    ((∀ j, runningSeq j = true) → ∀ sleeps,
      connect_postgres runningSeq attemptOk fuel k
        ≠ Option.some (ConnectOutcome.fatal, sleeps)) ∧
    (runningSeq k = false →
      connect_postgres runningSeq attemptOk (fuel+1) k
        = Option.some (ConnectOutcome.fatal, [])) ∧
    connect_clickhouse runningSeq attemptOk fuel k
      = connect_postgres runningSeq attemptOk fuel k := by
  refine ⟨connect_postgres_sleeps runningSeq attemptOk fuel k,
    connect_postgres_fatal_shutdown runningSeq attemptOk fuel k, ?_, ?_,
    connect_clickhouse_eq_postgres runningSeq attemptOk fuel k⟩
  · intro hall sleeps hcontra
    obtain ⟨j, _, hjf⟩ := connect_postgres_fatal_shutdown runningSeq attemptOk fuel k
      sleeps hcontra
    rw [hall j] at hjf
    exact Bool.noConfusion hjf
  · intro hk
    simp only [connect_postgres, hk]
    rfl

/-- Witness for C8: the shutdown signal flips at check index 2; two
failed attempts sleep 5 seconds each, then the loop raises. -/
theorem connect_retry_spec_witness :
    connect_postgres (fun j => decide (j < 2)) (fun _ => false) 5 0
      = Option.some (ConnectOutcome.fatal, [5, 5]) ∧
    ((fun j => decide (j < 2)) 2 = false) ∧
    connect_postgres (fun j => decide (j < 2)) (fun _ => false) (2+1) 2
      = Option.some (ConnectOutcome.fatal, []) ∧
    (∃ j, 0 ≤ j ∧ (fun j => decide (j < 2)) j = false) :=
  ⟨by decide, by decide,
   (connect_retry_spec (fun j => decide (j < 2)) (fun _ => false) 2 2).2.2.2.1 (by decide),
   (connect_retry_spec (fun j => decide (j < 2)) (fun _ => false) 5 0).2.1 [5, 5]
     (by decide)⟩

/-- C7 counterexample: on the notification path the handler reconnects
only the ClickHouse sink; when the failing store is the PostgreSQL
source, the source is not among the reconnection targets, so the
recovery does not reconnect "whichever store failed". -/
theorem notifyErrorRecovery_ignores_source :
    (notifyErrorRecovery Store.source 0).2 = [Store.sink] ∧
    Store.source ∉ (notifyErrorRecovery Store.source 0).2 := by
  decide

/-- C7 (amended): whenever a ForwardCycle raises in a forwarding state
the loop increments the error counter by exactly one before returning
to waiting for events; the poll-path handler attempts reconnection to
both stores (hence in particular to whichever failed), while the
notification-path handler attempts reconnection only to the ClickHouse
sink, regardless of which store failed. -/
theorem errorRecovery_spec (failed : Store) (errors : Nat) :
    (notifyErrorRecovery failed errors).1 = errors + 1 ∧
    (pollErrorRecovery failed errors).1 = errors + 1 ∧
    (notifyErrorRecovery failed errors).2 = [Store.sink] ∧
    (pollErrorRecovery failed errors).2 = [Store.source, Store.sink] ∧
    failed ∈ (pollErrorRecovery failed errors).2 := by
  refine ⟨rfl, rfl, rfl, rfl, ?_⟩
  cases failed <;> simp [pollErrorRecovery]
